import Mathlib

/-!
# Verification of the spoolsync reconciliation engine

A shallow embedding of the core of `app/sync.py` (with the local-cache
operations of `app/db.py`), together with theorems settling the frozen
claims about the program.

Modelling conventions:
* Python strings are `List Nat` of Unicode code points; `codes` converts a
  Lean string literal.  `.strip()`, `.upper()`, `.lower()`, `.split()`,
  `.startswith`/`.endswith` are modelled for the ASCII range the program
  manipulates.
* Python floats are modelled as exact rationals `ℚ`; `math.pi` is the
  IEEE-754 binary64 value used by the program (`mathPi`), and
  `round(x, 2)` is `round2` (round half away from zero differences at
  exact ties are outside the values exercised here).
* Python truthiness on optional numbers/strings (`if x:`, `x or y`) is
  modelled by the `truthy*` / `pyOr*` helpers: `None`, `0` and the empty
  string are falsy.
* Timestamps are Unix seconds as `ℚ`; ISO parsing/printing
  (`normalize_timestamp`) is the identity on this representation.
* Upstream HTTP mutations are reified as `UpAction` values emitted at the
  call site instead of performing I/O; local sqlite writes are state
  transitions on a `Db` value mirroring `app/db.py`.
-/

namespace Spoolsync

/-- Code points of a string literal (Python `str` as a list of code points). -/
def codes (s : String) : List Nat := s.data.map Char.toNat

/-- Python `str.isspace` characters relevant here (ASCII whitespace). -/
def isSpace (c : Nat) : Bool := c = 32 || c = 9 || c = 10 || c = 13 || c = 11 || c = 12

/-- Python `str.upper` on one ASCII character. -/
def upChar (c : Nat) : Nat := if 97 ≤ c ∧ c ≤ 122 then c - 32 else c

/-- Python `str.lower` on one ASCII character. -/
def downChar (c : Nat) : Nat := if 65 ≤ c ∧ c ≤ 90 then c + 32 else c

/-- Python `s.upper()`. -/
def upper (s : List Nat) : List Nat := s.map upChar

/-- Python `s.lower()`. -/
def lower (s : List Nat) : List Nat := s.map downChar

/-- Python `s.strip()`: drop leading and trailing whitespace. -/
def strip (s : List Nat) : List Nat :=
  ((s.dropWhile isSpace).reverse.dropWhile isSpace).reverse

/-- Worker for `splitWs`; `acc` holds the current word reversed. -/
def splitWsAux : List Nat → List Nat → List (List Nat)
  | [], acc => if acc = [] then [] else [acc.reverse]
  | c :: cs, acc =>
    if isSpace c then
      (if acc = [] then splitWsAux cs [] else acc.reverse :: splitWsAux cs [])
    else splitWsAux cs (c :: acc)

/-- Python `s.split()`: split on whitespace runs, dropping empty words. -/
def splitWs (s : List Nat) : List (List Nat) := splitWsAux s []

/-- Boolean prefix test: `startsWithB pat s` is Python `s.startswith(pat)`. -/
def startsWithB : List Nat → List Nat → Bool
  | [], _ => true
  | _ :: _, [] => false
  | a :: as, b :: bs => a == b && startsWithB as bs

/-- Boolean suffix test: `endsWithB pat s` is Python `s.endswith(pat)`. -/
def endsWithB (pat s : List Nat) : Bool := startsWithB pat.reverse s.reverse

/-- Python truthiness of an optional float: `None` and `0.0` are falsy. -/
def truthyQ : Option ℚ → Option ℚ
  | some x => if x = 0 then none else some x
  | none => none

/-- Python truthiness of an optional int: `None` and `0` are falsy. -/
def truthyNat : Option Nat → Option Nat
  | some n => if n = 0 then none else some n
  | none => none

/-- Python truthiness of an optional string: `None` and `""` are falsy. -/
def truthyStr : Option (List Nat) → Option (List Nat)
  | some s => if s = [] then none else some s
  | none => none

/-- Python `a or b` on optional floats. -/
def pyOrQ (a b : Option ℚ) : Option ℚ :=
  match truthyQ a with
  | some x => some x
  | none => b

/-- Python `x or d` where `d` is a float default (`grams_per_meter(...) or 2.98`). -/
def pyOrFloat (o : Option ℚ) (d : ℚ) : ℚ := (truthyQ o).getD d

/-- `math.pi` as the exact value of its IEEE-754 binary64 representation. -/
def mathPi : ℚ := 884279719003555 / 281474976710656

/-- Python `round(x, 2)` (ties differ from banker's rounding, unexercised here). -/
def round2 (q : ℚ) : ℚ := (round (q * 100) : ℤ) / 100

/-- `sync.grams_per_meter`: grams of filament per meter, `None` on falsy input. -/
def grams_per_meter (density_g_cm3 diameter_mm : ℚ) : Option ℚ :=
  if density_g_cm3 = 0 ∨ diameter_mm = 0 then none
  else
    let r_cm := diameter_mm / 10 / 2
    let vol_cm3 := mathPi * r_cm * r_cm * 100
    some (round2 (vol_cm3 * density_g_cm3))

/-- `sync.calculate_weight_from_length`: grams from a length in millimeters. -/
def calculate_weight_from_length (length_mm density_g_cm3 diameter_mm : ℚ) : ℚ :=
  round2 (length_mm / 1000 * pyOrFloat (grams_per_meter density_g_cm3 diameter_mm) (298/100))

/-- Python `min(xs, key=lambda x: abs(x - w))` scanning `xs` with current best `best`
(keeps the earlier element on ties, as `min` does). -/
def closestMin (w : ℚ) : List ℚ → ℚ → ℚ
  | [], best => best
  | x :: xs, best => closestMin w xs (if |x - w| < |best - w| then x else best)

/-- Python `min(xs, key=lambda x: abs(x - w))` for a nonempty list (0 if empty). -/
def minAbsKey (w : ℚ) : List ℚ → ℚ
  | [] => 0
  | x :: xs => closestMin w xs x

/-- The `standard_weights` list chosen by `round_to_standard_weight`
(1100 g only for brand JAYO, case-insensitively, with the weight in range). -/
def standardWeightCandidates (brand : List Nat) (weight_g : ℚ) : List ℚ :=
  if upper brand = codes "JAYO" ∧ 1000 < weight_g ∧ weight_g < 1200 then
    [250, 500, 1000, 1100, 2000, 5000, 10000]
  else
    [250, 500, 1000, 2000, 5000, 10000]

/-- `sync.round_to_standard_weight`: snap a computed full-spool weight to a
standard spool size when within 12 percent of it. -/
def round_to_standard_weight (weight_g : ℚ) (brand : List Nat) : ℚ :=
  let standard_weights := standardWeightCandidates brand weight_g
  let closest := minAbsKey weight_g standard_weights
  if |weight_g - closest| / closest ≤ 12/100 then closest else weight_g

/-- `sync.normalize_color`: canonicalize a color string (`None` for falsy input,
keep a leading `#` verbatim, prefix `#` to any other 6-character string). -/
def normalize_color (color : List Nat) : Option (List Nat) :=
  if color = [] then none
  else
    let color_str := strip color
    if startsWithB (codes "#") color_str then some color_str
    else if color_str.length = 6 then some (codes "#" ++ color_str)
    else none

/-- The ordered list of known material types from `extract_material_type`
(longer variants first). -/
def known_materials : List (List Nat) :=
  [codes "PLA+", codes "PETG-CF", codes "PLA-CF", codes "ABS+", codes "TPU-95A",
   codes "TPU-98A", codes "PETG", codes "PLA", codes "ABS", codes "TPU",
   codes "NYLON", codes "ASA", codes "PC", codes "PP", codes "PVA", codes "HIPS"]

/-- The per-material test of the search loop in `extract_material_type`:
exact match, suffix after a space, prefix before a space, or a standalone word. -/
def materialHit (material_upper mat : List Nat) : Bool :=
  material_upper == mat
    || endsWithB (codes " " ++ mat) material_upper
    || startsWithB (mat ++ codes " ") material_upper
    || decide (mat ∈ splitWs material_upper)

/-- The search loop of `extract_material_type`: first known material (in list
order) whose test fires. -/
def matchKnown (material_upper : List Nat) : Option (List Nat) :=
  known_materials.find? (materialHit material_upper)

/-- `sync.extract_material_type` on a string `type_field` (the dict branch
resolves to its `name` string first, so idempotency concerns this domain). -/
def extract_material_type (type_field : List Nat) : List Nat :=
  let material0 := if type_field = [] then codes "Unknown" else type_field
  let material := strip material0
  let material_upper := upper material
  match matchKnown material_upper with
  | some mat => mat
  | none =>
    let words := splitWs material
    if 1 < words.length then
      let last_word := words.getLastD []
      if 2 ≤ last_word.length ∧ last_word.length ≤ 10 then last_word else material
    else material

/-! ## Helper lemmas -/

lemma round2_mono {a b : ℚ} (h : a ≤ b) : round2 a ≤ round2 b := by
  unfold round2
  have h0 : round (a * 100) ≤ round (b * 100) := by
    rw [round_eq, round_eq]
    exact Int.floor_le_floor (by linarith)
  have h1 : ((round (a * 100) : ℤ) : ℚ) ≤ ((round (b * 100) : ℤ) : ℚ) := by exact_mod_cast h0
  linarith

lemma closestMin_mem (w : ℚ) (l : List ℚ) (best : ℚ) :
    closestMin w l best = best ∨ closestMin w l best ∈ l := by
  induction l generalizing best with
  | nil => exact Or.inl rfl
  | cons x xs ih =>
    simp only [closestMin]
    split
    · rcases ih x with h | h
      · exact Or.inr (by simp [h])
      · exact Or.inr (List.mem_cons_of_mem _ h)
    · rcases ih best with h | h
      · exact Or.inl h
      · exact Or.inr (List.mem_cons_of_mem _ h)

lemma closestMin_le_best (w : ℚ) (l : List ℚ) (best : ℚ) :
    |closestMin w l best - w| ≤ |best - w| := by
  induction l generalizing best with
  | nil => simp [closestMin]
  | cons x xs ih =>
    simp only [closestMin]
    split
    · calc |closestMin w xs x - w| ≤ |x - w| := ih x
        _ ≤ |best - w| := by linarith
    · exact ih best

lemma closestMin_le_mem (w : ℚ) (l : List ℚ) (best : ℚ) :
    ∀ x ∈ l, |closestMin w l best - w| ≤ |x - w| := by
  induction l generalizing best with
  | nil => simp
  | cons y ys ih =>
    intro x hx
    simp only [closestMin]
    rcases List.mem_cons.mp hx with rfl | hx
    · split
      · exact closestMin_le_best w ys x
      · rename_i hcond
        calc |closestMin w ys best - w| ≤ |best - w| := closestMin_le_best w ys best
          _ ≤ |x - w| := le_of_not_lt hcond
    · split
      · exact ih y x hx
      · exact ih best x hx

lemma minAbsKey_mem (w : ℚ) (l : List ℚ) (hl : l ≠ []) : minAbsKey w l ∈ l := by
  match l with
  | x :: xs =>
    simp only [minAbsKey]
    rcases closestMin_mem w xs x with h | h
    · simp [h]
    · exact List.mem_cons_of_mem _ h

lemma minAbsKey_le (w : ℚ) (l : List ℚ) :
    ∀ x ∈ l, |minAbsKey w l - w| ≤ |x - w| := by
  match l with
  | [] => simp
  | y :: ys =>
    intro x hx
    rcases List.mem_cons.mp hx with rfl | hx
    · exact closestMin_le_best w ys x
    · exact closestMin_le_mem w ys y x hx

/-! ## C5: grams_per_meter formula, falsy inputs, 2.98 fallback -/

/-- C5: for non-falsy density and diameter, `grams_per_meter` equals
π·(Ø/20)²·100·d rounded to two decimals (π being the program's `math.pi`),
for `d = 1.24, Ø = 1.75` the value is within 0.01 of 2.98, and on falsy
input it returns `None` while `calculate_weight_from_length` substitutes
2.98 as the grams-per-meter factor. -/
theorem grams_per_meter_spec (d dia L : ℚ) :
    (¬ (d = 0 ∨ dia = 0) →
      grams_per_meter d dia = some (round2 (mathPi * (dia / 20) ^ 2 * 100 * d)))
    ∧ ((d = 0 ∨ dia = 0) → grams_per_meter d dia = none ∧
        calculate_weight_from_length L d dia = round2 (L / 1000 * (298/100)))
    ∧ (∀ g, grams_per_meter (124/100) (7/4) = some g → |g - 298/100| ≤ 1/100) := by
  refine ⟨fun h => ?_, fun h => ⟨?_, ?_⟩, fun g hg => ?_⟩
  · unfold grams_per_meter
    rw [if_neg h]
    have : mathPi * (dia / 10 / 2) * (dia / 10 / 2) * 100 * d
        = mathPi * (dia / 20) ^ 2 * 100 * d := by ring
    simp only [this]
  · unfold grams_per_meter
    rw [if_pos h]
  · unfold calculate_weight_from_length grams_per_meter
    rw [if_pos h]
    simp [pyOrFloat, truthyQ]
  · have : grams_per_meter (124/100) (7/4) = some (298/100) := by
      norm_num [grams_per_meter, mathPi, round2, round_eq]
    rw [this] at hg
    cases hg
    norm_num

/-- Witness for C5 at concrete inputs: both the non-falsy and falsy branches. -/
theorem grams_per_meter_spec_witness :
    grams_per_meter (124/100) (7/4) = some (round2 (mathPi * ((7:ℚ)/4 / 20) ^ 2 * 100 * (124/100)))
    ∧ grams_per_meter 0 (7/4) = none
    ∧ calculate_weight_from_length 1000 0 (7/4) = round2 ((1000:ℚ) / 1000 * (298/100)) := by
  refine ⟨(grams_per_meter_spec (124/100) (7/4) 1000).1 (by norm_num), ?_, ?_⟩
  · exact ((grams_per_meter_spec 0 (7/4) 1000).2.1 (Or.inl rfl)).1
  · exact ((grams_per_meter_spec 0 (7/4) 1000).2.1 (Or.inl rfl)).2

/-! ## C9: monotonicity of grams_per_meter -/

/-- C9 (amended): `grams_per_meter` is weakly monotone in both arguments on
positive inputs; strict monotonicity fails because of the two-decimal
rounding. -/
theorem grams_per_meter_mono (d1 d2 dia1 dia2 g1 g2 : ℚ)
    (hd1 : 0 < d1) (hd : d1 ≤ d2) (ho1 : 0 < dia1) (ho : dia1 ≤ dia2)
    (h1 : grams_per_meter d1 dia1 = some g1)
    (h2 : grams_per_meter d2 dia2 = some g2) : g1 ≤ g2 := by
  have hd2 : 0 < d2 := lt_of_lt_of_le hd1 hd
  have ho2 : 0 < dia2 := lt_of_lt_of_le ho1 ho
  unfold grams_per_meter at h1 h2
  rw [if_neg (by push_neg; constructor <;> positivity)] at h1
  rw [if_neg (by push_neg; constructor <;> positivity)] at h2
  cases h1; cases h2
  apply round2_mono
  have hpi : (0:ℚ) < mathPi := by norm_num [mathPi]
  gcongr

/-- Witness for C9 at concrete inputs. -/
theorem grams_per_meter_mono_witness :
    ∃ g1 g2 : ℚ, grams_per_meter (124/100) (7/4) = some g1
      ∧ grams_per_meter (13/10) (7/4) = some g2 ∧ g1 ≤ g2 := by
  have h1 : grams_per_meter (124/100) (7/4) = some (298/100) := by
    norm_num [grams_per_meter, mathPi, round2, round_eq]
  have h2 : grams_per_meter (13/10) (7/4) = some (313/100) := by
    norm_num [grams_per_meter, mathPi, round2, round_eq]
  exact ⟨298/100, 313/100,
    h1, h2, grams_per_meter_mono (124/100) (13/10) (7/4) (7/4) _ _
      (by norm_num) (by norm_num) (by norm_num) (by norm_num) h1 h2⟩

/-- C9 counterexample: the claimed strict monotonicity in the density is
false — densities 1.24 and 1.2401 give the same rounded output. -/
theorem grams_per_meter_mono_counterexample :
    ¬ (∀ d1 d2 dia g1 g2 : ℚ, 0 < d1 → d1 < d2 → 0 < dia →
        grams_per_meter d1 dia = some g1 → grams_per_meter d2 dia = some g2 →
        g1 < g2) := by
  intro h
  have h1 : grams_per_meter (124/100) (7/4) = some (298/100) := by
    norm_num [grams_per_meter, mathPi, round2, round_eq]
  have h2 : grams_per_meter (12401/10000) (7/4) = some (298/100) := by
    norm_num [grams_per_meter, mathPi, round2, round_eq]
  have := h (124/100) (12401/10000) (7/4) (298/100) (298/100)
    (by norm_num) (by norm_num) (by norm_num) h1 h2
  exact absurd this (lt_irrefl _)

/-! ## C3: standard-weight rounding -/

lemma standardWeightCandidates_ne_nil (brand : List Nat) (w : ℚ) :
    standardWeightCandidates brand w ≠ [] := by
  unfold standardWeightCandidates
  split <;> simp

lemma standardWeightCandidates_pos (brand : List Nat) (w : ℚ) :
    ∀ x ∈ standardWeightCandidates brand w, (0:ℚ) < x := by
  unfold standardWeightCandidates
  split <;> (intro x hx; fin_cases hx <;> norm_num)

/-- C3 (amended): the result of `round_to_standard_weight` is the nearest
candidate (ties resolved toward the earlier, smaller, candidate) among
[250, 500, 1000, 2000, 5000, 10000] — with 1100 also a candidate exactly when
the brand uppercases to "JAYO" and 1000 < w < 1200 — but only when that
nearest candidate c is within ±12 percent *of c* (|w − c| ≤ 0.12·c: the code
divides the distance by the candidate, not by w); otherwise the input is
returned unchanged. -/
theorem round_to_standard_weight_spec (w : ℚ) (brand : List Nat) :
    minAbsKey w (standardWeightCandidates brand w) ∈ standardWeightCandidates brand w
    ∧ (∀ x ∈ standardWeightCandidates brand w,
        |minAbsKey w (standardWeightCandidates brand w) - w| ≤ |x - w|)
    ∧ round_to_standard_weight w brand =
        (if |w - minAbsKey w (standardWeightCandidates brand w)|
            ≤ (12/100) * minAbsKey w (standardWeightCandidates brand w)
         then minAbsKey w (standardWeightCandidates brand w) else w) := by
  have hne := standardWeightCandidates_ne_nil brand w
  have hmem := minAbsKey_mem w _ hne
  have hpos : 0 < minAbsKey w (standardWeightCandidates brand w) :=
    standardWeightCandidates_pos brand w _ hmem
  refine ⟨hmem, minAbsKey_le w _, ?_⟩
  have hiff : (|w - minAbsKey w (standardWeightCandidates brand w)|
        / minAbsKey w (standardWeightCandidates brand w) ≤ 12/100)
      ↔ (|w - minAbsKey w (standardWeightCandidates brand w)|
        ≤ 12/100 * minAbsKey w (standardWeightCandidates brand w)) := by
    rw [div_le_iff₀ hpos]
  simp only [round_to_standard_weight]
  split_ifs with h1 h2 h3
  · rfl
  · exact absurd (hiff.mp h1) h2
  · exact absurd (hiff.mpr h3) h1
  · rfl

/-- C3 counterexample, two divergences from the claim as stated.  (i) For
brand "jayo" (lowercase, so not the literal brand "JAYO" of the claim) and
w = 1100, the claim's candidate set is [250, 500, 1000, 2000, 5000, 10000],
whose nearest value 1000 is within ±12 percent, so the claim demands 1000;
the program's case-insensitive brand test admits 1100 and returns 1100.
(ii) For a non-JAYO brand and w = 1130, the nearest candidate is 1000 and
|1130 − 1000| = 130 ≤ 0.12·1130 = 135.6, so under the claim's "within ±12%
of w" the result must be 1000; the program anchors the tolerance to the
candidate (130 > 0.12·1000 = 120) and returns 1130 unchanged. -/
theorem round_to_standard_weight_counterexample :
    round_to_standard_weight 1100 (codes "jayo") = 1100
    ∧ codes "jayo" ≠ codes "JAYO"
    ∧ (1100 : ℚ) ∉ ([250, 500, 1000, 2000, 5000, 10000] : List ℚ)
    ∧ (∀ x ∈ ([250, 500, 1000, 2000, 5000, 10000] : List ℚ), |(1000:ℚ) - 1100| ≤ |x - 1100|)
    ∧ |(1100:ℚ) - 1000| ≤ (12/100) * 1000
    ∧ round_to_standard_weight 1130 (codes "") = 1130
    ∧ (∀ x ∈ ([250, 500, 1000, 2000, 5000, 10000] : List ℚ), |(1000:ℚ) - 1130| ≤ |x - 1130|)
    ∧ |(1130:ℚ) - 1000| ≤ (12/100) * 1130
    ∧ ¬ |(1130:ℚ) - 1000| ≤ (12/100) * 1000 := by
  refine ⟨?_, by decide, by norm_num, ?_, by norm_num, ?_, ?_, by norm_num, by norm_num⟩
  · norm_num [round_to_standard_weight, standardWeightCandidates, minAbsKey, closestMin,
      show upper (codes "jayo") = codes "JAYO" from by decide]
  · intro x hx
    fin_cases hx <;> norm_num
  · norm_num [round_to_standard_weight, standardWeightCandidates, minAbsKey, closestMin,
      eq_false (by decide : ¬ upper (codes "") = codes "JAYO")]
  · intro x hx
    fin_cases hx <;> norm_num

/-! ## C8: color canonicalization -/

/-- ASCII hexadecimal digit test, for stating what a canonical color is. -/
def isHexDigit (c : Nat) : Bool :=
  (48 ≤ c && c ≤ 57) || (65 ≤ c && c ≤ 70) || (97 ≤ c && c ≤ 102)

/-- A canonical `#RRGGBB` value: a `#` followed by exactly six hex digits. -/
def isCanonicalRRGGBB : List Nat → Bool
  | c :: ds => c == 35 && ds.length == 6 && ds.all isHexDigit
  | [] => false

/-- C8 counterexample: "zzzzzz" consists of six non-hex characters, so by the
claim it is invalid and must yield None; the program instead returns
"#zzzzzz", which is not a canonical #RRGGBB value. -/
theorem normalize_color_counterexample :
    normalize_color (codes "zzzzzz") = some (codes "#zzzzzz")
    ∧ (codes "zzzzzz").all isHexDigit = false
    ∧ isCanonicalRRGGBB (codes "#zzzzzz") = false := by decide

/-- C8 (amended): `normalize_color` performs no hex validation. Falsy input
yields None; a stripped input with a leading '#' is returned unchanged
(whatever its length or characters); any other stripped input of length
exactly six (hex or not) gets '#' prefixed; every other input yields None. -/
theorem normalize_color_spec (color : List Nat) :
    (color = [] → normalize_color color = none)
    ∧ (color ≠ [] → startsWithB (codes "#") (strip color) = true →
        normalize_color color = some (strip color))
    ∧ (color ≠ [] → startsWithB (codes "#") (strip color) = false →
        (strip color).length = 6 → normalize_color color = some (codes "#" ++ strip color))
    ∧ (color ≠ [] → startsWithB (codes "#") (strip color) = false →
        (strip color).length ≠ 6 → normalize_color color = none) := by
  refine ⟨fun h => by simp [normalize_color, h],
    fun h h2 => by simp [normalize_color, h, h2],
    fun h h2 h3 => by simp [normalize_color, h, h2, h3],
    fun h h2 h3 => by simp [normalize_color, h, h2, h3]⟩

/-- Witness for C8's amended claim at concrete inputs, one per branch. -/
theorem normalize_color_spec_witness :
    normalize_color (codes "#ab") = some (strip (codes "#ab"))
    ∧ normalize_color (codes " FF00AA ") = some (codes "#" ++ strip (codes " FF00AA "))
    ∧ normalize_color (codes "red") = none := by
  refine ⟨(normalize_color_spec (codes "#ab")).2.1 (by decide) (by decide),
    (normalize_color_spec (codes " FF00AA ")).2.2.1 (by decide) (by decide) (by decide),
    (normalize_color_spec (codes "red")).2.2.2 (by decide) (by decide) (by decide)⟩

/-! ## C7: idempotency of material extraction -/

lemma isSpace_upChar (c : Nat) : isSpace (upChar c) = isSpace c := by
  unfold upChar
  split
  · rename_i h
    have h1 : isSpace (c - 32) = false := by
      simp only [isSpace, Bool.or_eq_false_iff, decide_eq_false_iff_not]
      omega
    have h2 : isSpace c = false := by
      simp only [isSpace, Bool.or_eq_false_iff, decide_eq_false_iff_not]
      omega
    rw [h1, h2]
  · rfl

lemma upper_eq_nil_iff (s : List Nat) : upper s = [] ↔ s = [] := by
  simp [upper]

lemma splitWsAux_mem (s : List Nat) :
    ∀ acc, (∀ c ∈ acc, isSpace c = false) →
      ∀ w ∈ splitWsAux s acc, w ≠ [] ∧ ∀ c ∈ w, isSpace c = false := by
  induction s with
  | nil =>
    intro acc hacc w hw
    simp only [splitWsAux] at hw
    split at hw
    · simp at hw
    · rename_i hne
      rw [List.mem_singleton] at hw
      subst hw
      refine ⟨by simpa using hne, fun c hc => hacc c (by simpa using hc)⟩
  | cons c cs ih =>
    intro acc hacc w hw
    simp only [splitWsAux] at hw
    by_cases hc : isSpace c = true
    · rw [if_pos hc] at hw
      split at hw
      · exact ih [] (by simp) w hw
      · rename_i hne
        rcases List.mem_cons.mp hw with rfl | hw
        · refine ⟨by simpa using hne, fun d hd => hacc d (by simpa using hd)⟩
        · exact ih [] (by simp) w hw
    · rw [if_neg hc] at hw
      refine ih (c :: acc) ?_ w hw
      intro d hd
      rcases List.mem_cons.mp hd with rfl | hd
      · simpa using hc
      · exact hacc d hd

lemma mem_splitWs (s : List Nat) :
    ∀ w ∈ splitWs s, w ≠ [] ∧ ∀ c ∈ w, isSpace c = false :=
  splitWsAux_mem s [] (by simp)

lemma splitWsAux_nospace (s : List Nat) (hs : ∀ c ∈ s, isSpace c = false) :
    ∀ acc, splitWsAux s acc = if acc = [] ∧ s = [] then [] else [acc.reverse ++ s] := by
  induction s with
  | nil =>
    intro acc
    by_cases h : acc = [] <;> simp [splitWsAux, h]
  | cons c cs ih =>
    intro acc
    have hc : isSpace c = false := hs c (List.mem_cons_self c cs)
    have hcs : ∀ d ∈ cs, isSpace d = false := fun d hd => hs d (List.mem_cons_of_mem c hd)
    simp only [splitWsAux, hc]
    rw [if_neg (by simp), ih hcs (c :: acc)]
    rw [if_neg (by simp)]
    simp

lemma splitWs_single (w : List Nat) (hw : w ≠ []) (hs : ∀ c ∈ w, isSpace c = false) :
    splitWs w = [w] := by
  unfold splitWs
  rw [splitWsAux_nospace w hs []]
  simp [hw]

lemma splitWsAux_map_upChar (s : List Nat) :
    ∀ acc, splitWsAux (s.map upChar) (acc.map upChar)
      = (splitWsAux s acc).map (List.map upChar) := by
  induction s with
  | nil =>
    intro acc
    simp only [List.map_nil, splitWsAux]
    by_cases h : acc = []
    · simp [h]
    · rw [if_neg (by simpa using h), if_neg h]
      simp
  | cons c cs ih =>
    intro acc
    simp only [List.map_cons, splitWsAux, isSpace_upChar]
    by_cases hc : isSpace c = true
    · rw [if_pos hc, if_pos hc]
      by_cases h : acc = []
      · subst h
        simpa using ih []
      · rw [if_neg (by simpa using h), if_neg h]
        have := ih []
        simp only [List.map_nil] at this
        simp [this]
    · rw [if_neg hc, if_neg hc]
      simpa using ih (c :: acc)

lemma splitWs_upper (s : List Nat) :
    splitWs (upper s) = (splitWs s).map upper := by
  unfold splitWs upper
  have := splitWsAux_map_upChar s []
  simpa using this

lemma dropWhile_nospace (p : Nat → Bool) (s : List Nat) (hs : ∀ c ∈ s, p c = false) :
    s.dropWhile p = s := by
  cases s with
  | nil => rfl
  | cons c cs => simp [List.dropWhile_cons, hs c (List.mem_cons_self c cs)]

lemma strip_nospace (s : List Nat) (hs : ∀ c ∈ s, isSpace c = false) : strip s = s := by
  unfold strip
  rw [dropWhile_nospace isSpace s hs,
    dropWhile_nospace isSpace s.reverse (fun c hc => hs c (List.mem_reverse.mp hc)),
    List.reverse_reverse]

lemma dropWhile_head_false (p : Nat → Bool) (l : List Nat) :
    l.dropWhile p = [] ∨ ∃ c cs, l.dropWhile p = c :: cs ∧ p c = false := by
  induction l with
  | nil => exact Or.inl rfl
  | cons c cs ih =>
    by_cases h : p c = true
    · simpa [List.dropWhile_cons, h] using ih
    · exact Or.inr ⟨c, cs, by simp [List.dropWhile_cons, h], by simpa using h⟩

lemma strip_of_ends (t : List Nat)
    (h1 : ∀ d ds, t = d :: ds → isSpace d = false)
    (h2 : ∀ d ds, t.reverse = d :: ds → isSpace d = false) : strip t = t := by
  unfold strip
  cases ht : t with
  | nil => simp
  | cons d ds =>
    rw [← ht]
    have hd := h1 d ds ht
    have hdrop : t.dropWhile isSpace = t := by
      rw [ht]
      simp [List.dropWhile_cons, hd]
    rw [hdrop]
    cases htr : t.reverse with
    | nil =>
      have ht0 : t = [] := by simpa using congrArg List.reverse htr
      simp [ht0]
    | cons e es =>
      have he := h2 e es htr
      have hdw : (e :: es).dropWhile isSpace = e :: es := by
        simp [List.dropWhile_cons, he]
      rw [hdw]
      have h3 : t = (e :: es).reverse := by simpa using congrArg List.reverse htr
      exact h3.symm

lemma strip_idem (s : List Nat) : strip (strip s) = strip s := by
  rcases dropWhile_head_false isSpace s with h1 | ⟨c, cs, h1, hc⟩
  · unfold strip
    rw [h1]
    simp
  · rcases dropWhile_head_false isSpace (s.dropWhile isSpace).reverse with h2 | ⟨e, es, h2, he⟩
    · unfold strip
      rw [h2]
      simp
    · -- strip s = (e :: es).reverse; its head is c (head of s.dropWhile) and its
      -- last element is e; both fail isSpace, so stripping again is the identity.
      have hstrip : strip s = (e :: es).reverse := by
        unfold strip
        rw [h2]
      have hsuffix : (e :: es) <:+ (s.dropWhile isSpace).reverse := by
        rw [← h2]
        exact List.dropWhile_suffix isSpace
      obtain ⟨u, hu⟩ := hsuffix
      have hpre : strip s <+: s.dropWhile isSpace := by
        refine ⟨u.reverse, ?_⟩
        rw [hstrip]
        have hrr : s.dropWhile isSpace = ((s.dropWhile isSpace).reverse).reverse := by simp
        rw [hrr, ← hu]
        simp
      apply strip_of_ends
      · intro d ds hd
        obtain ⟨v, hv⟩ := hpre
        rw [hd, h1] at hv
        have hdc : d = c := by
          have := congrArg (fun l => l.head?) hv
          simpa using this
        rw [hdc]
        exact hc
      · intro d ds hd
        rw [hstrip] at hd
        simp only [List.reverse_reverse] at hd
        cases hd
        exact he

lemma startsWithB_iff (pat s : List Nat) : startsWithB pat s = true ↔ pat <+: s := by
  induction pat generalizing s with
  | nil => simp [startsWithB]
  | cons a as ih =>
    cases s with
    | nil => simp [startsWithB]
    | cons b bs =>
      simp only [startsWithB, Bool.and_eq_true, beq_iff_eq, ih, List.cons_prefix_cons]

lemma endsWithB_iff (pat s : List Nat) : endsWithB pat s = true ↔ pat <:+ s := by
  unfold endsWithB
  rw [startsWithB_iff]
  exact List.reverse_prefix

lemma known_materials_extract :
    ∀ mat ∈ known_materials, extract_material_type mat = mat := by decide

lemma matchKnown_word_none (w : List Nat) (hw : w ≠ [])
    (hns : ∀ c ∈ w, isSpace c = false)
    (hnot : ∀ mat ∈ known_materials, mat ≠ w) : matchKnown w = none := by
  unfold matchKnown
  rw [List.find?_eq_none]
  intro mat hmat
  have hne : mat ≠ w := hnot mat hmat
  simp only [materialHit, Bool.or_eq_true, beq_iff_eq, decide_eq_true_eq, not_or]
  refine ⟨⟨⟨fun h => hne h.symm, fun h => ?_⟩, fun h => ?_⟩, fun h => ?_⟩
  · have hsuf := (endsWithB_iff _ _).mp h
    have hmem : (32:Nat) ∈ w := hsuf.subset (by simp [show codes " " = [32] from rfl])
    exact absurd (hns 32 hmem) (by decide)
  · have hpre := (startsWithB_iff _ _).mp h
    have hmem : (32:Nat) ∈ w := hpre.subset (by simp [show codes " " = [32] from rfl])
    exact absurd (hns 32 hmem) (by decide)
  · rw [splitWs_single w hw hns] at h
    exact hne (by simpa using h)

lemma getLastD_mem_of_ne_nil {α : Type} (l : List α) (d : α) (h : l ≠ []) :
    l.getLastD d ∈ l := by
  induction l generalizing d with
  | nil => exact absurd rfl h
  | cons a as ih =>
    cases has : as with
    | nil => simp [List.getLastD]
    | cons b bs =>
      rw [List.getLastD_cons]
      rw [← has]
      exact List.mem_cons_of_mem a (ih a (by simp [has]))

/-- `extract_material_type` fixes any nonempty whitespace-free word whose
uppercasing is not a known material. -/
lemma extract_word_fixed (w : List Nat) (hw : w ≠ [])
    (hns : ∀ c ∈ w, isSpace c = false)
    (hnot : ∀ mat ∈ known_materials, mat ≠ upper w) :
    extract_material_type w = w := by
  have hmk : matchKnown (upper w) = none := by
    refine matchKnown_word_none (upper w) (by simpa [upper_eq_nil_iff] using hw) ?_ hnot
    intro c hc
    obtain ⟨d, hd, rfl⟩ := List.mem_map.mp hc
    rw [isSpace_upChar]
    exact hns d hd
  simp only [extract_material_type, if_neg hw, strip_nospace w hns, hmk,
    splitWs_single w hw hns]
  simp

/-- C7 (amended): material extraction is idempotent on every input whose
extraction result is nonempty.  (The only failing inputs are nonempty
all-whitespace strings: they extract to the empty string, which re-extracts
to "Unknown".) -/
theorem extract_material_type_idem (x : List Nat)
    (hx : extract_material_type x ≠ []) :
    extract_material_type (extract_material_type x) = extract_material_type x := by
  set material := strip (if x = [] then codes "Unknown" else x) with hmat
  have hx_eq : extract_material_type x =
      (match matchKnown (upper material) with
       | some mat => mat
       | none =>
         if 1 < (splitWs material).length then
           if 2 ≤ ((splitWs material).getLastD []).length
              ∧ ((splitWs material).getLastD []).length ≤ 10 then
             (splitWs material).getLastD []
           else material
         else material) := by
    rw [hmat]
    rfl
  cases hk : matchKnown (upper material) with
  | some mat =>
    have hmem : mat ∈ known_materials := List.mem_of_find?_eq_some hk
    rw [hx_eq, hk]
    exact known_materials_extract mat hmem
  | none =>
    have hmiss : ∀ m ∈ known_materials, m ∉ splitWs (upper material) := by
      intro m hm
      have hhit := List.find?_eq_none.mp hk m hm
      simp only [materialHit, Bool.or_eq_true, beq_iff_eq, decide_eq_true_eq,
        not_or] at hhit
      exact hhit.2
    have hsm : strip material = material := by
      rw [hmat]
      exact strip_idem _
    rw [hx_eq, hk] at hx ⊢
    by_cases h1 : 1 < (splitWs material).length
    · by_cases h2 : 2 ≤ ((splitWs material).getLastD []).length
          ∧ ((splitWs material).getLastD []).length ≤ 10
      · rw [if_pos h1, if_pos h2]
        have hlwmem : (splitWs material).getLastD [] ∈ splitWs material :=
          getLastD_mem_of_ne_nil _ _ (by intro h0; rw [h0] at h1; simp at h1)
        obtain ⟨hlw_ne, hlw_ns⟩ := mem_splitWs material _ hlwmem
        refine extract_word_fixed _ hlw_ne hlw_ns ?_
        intro m hm heq
        refine hmiss m hm ?_
        rw [splitWs_upper material, heq]
        exact List.mem_map_of_mem upper hlwmem
      · rw [if_pos h1, if_neg h2]
        rw [if_pos h1, if_neg h2] at hx
        simp only [extract_material_type, if_neg hx, hsm, hk]
        rw [if_pos h1, if_neg h2]
    · rw [if_neg h1]
      rw [if_neg h1] at hx
      simp only [extract_material_type, if_neg hx, hsm, hk]
      rw [if_neg h1]

/-- Witness for C7's amended claim at a concrete input. -/
theorem extract_material_type_idem_witness :
    extract_material_type (codes "JAYO PETG") ≠ []
    ∧ extract_material_type (extract_material_type (codes "JAYO PETG"))
      = extract_material_type (codes "JAYO PETG") :=
  ⟨by decide, extract_material_type_idem (codes "JAYO PETG") (by decide)⟩

/-- C7 counterexample: on the nonempty all-whitespace input "   ",
extraction yields the empty string, but extracting that again yields
"Unknown", so extraction is not idempotent there. -/
theorem extract_material_type_counterexample :
    extract_material_type (extract_material_type (codes "   "))
      ≠ extract_material_type (codes "   ") := by decide

/-! ## Data model for the reconciler -/

/-- The `filament` field of an Inv spool JSON object: a nested object (whose
`id` may be missing) or a flat `filament_id`, as handled defensively at
`sync.py` lines 690–695 and 936–941. -/
inductive FilField
  | nestedDict (id : Option Nat)
  | flat (filament_id : Option Nat)
deriving DecidableEq

/-- The defensive filament-id extraction
`sm_spool.get("filament", {}).get("id") if isinstance(..., dict) else sm_spool.get("filament_id")`. -/
def smFilamentId : FilField → Option Nat
  | .nestedDict i => i
  | .flat i => i

/-- An Inv (Spoolman) spool as consumed by the reconciler.  Timestamps are
Unix seconds; ISO parsing of `last_used`/`updated_at` is the identity here. -/
structure Spool where
  id : Nat
  lot_nr : Option (List Nat)
  used_weight : Option ℚ
  spool_weight : Option ℚ
  price : Option ℚ
  archived : Bool
  filament : FilField
  initial_weight : Option ℚ
  last_used : Option ℚ
  updated_at : Option ℚ

/-- The normalized record produced by `extract_filament_data` and consumed by
the per-item reconciliation (its fields are exactly the dict it returns). -/
structure FilamentData where
  uid : List Nat
  name : List Nat
  brand : List Nat
  material : List Nat
  diameter_mm : ℚ
  density_g_cm3 : ℚ
  color_hex : Option (List Nat)
  nominal_weight_g : Option ℚ
  total_length_mm : Option ℚ
  left_length_mm : Option ℚ
  spool_weight_g : Option ℚ
  last_used : Option ℚ
  extruder_temp : Option ℤ
  bed_temp : Option ℤ
  cost : Option ℚ

/-- Payload of `POST /filament` built in `ensure_spoolman_spool` (optional
fields are present only when set there). -/
structure SmFilamentPayload where
  name : List Nat
  diameter : ℚ
  density : ℚ
  material : Option (List Nat)
  vendor_id : Option Nat
  color_hex : Option (List Nat)
  settings_extruder_temp : Option ℤ
  settings_bed_temp : Option ℤ
  price : Option ℚ
  weight : Option ℚ

/-- Payload of `POST /spool` built in `ensure_spoolman_spool`. -/
structure SpoolCreatePayload where
  filament_id : Option Nat
  lot_nr : List Nat
  initial_weight : Option ℚ
  price : ℚ
  used_weight : ℚ
  archived : Bool
  spool_weight : Option ℚ
  last_used : Option ℚ

/-- Payload of `PUT /spool/{id}` (used both by the usage update and by the
cleanup archival; `none` models a key absent from the payload). -/
structure SpoolUpdatePayload where
  filament_id : Option Nat
  price : Option ℚ
  spool_weight : Option ℚ
  archived : Bool
  lot_nr : Option (List Nat)
  used_weight : Option ℚ
  last_used : Option ℚ

/-- A mutating upstream call, reified at its call site (no I/O is modelled). -/
inductive UpAction
  | create_vendor (name : List Nat)
  | create_filament (payload : SmFilamentPayload)
  | create_spool (payload : SpoolCreatePayload)
  | update_spool (id : Nat) (payload : SpoolUpdatePayload)
  | delete_spool (id : Nat)
  | update_simplyprint (uid : List Nat) (remaining_length_mm : ℚ)

/-! ## calculate_and_sync_usage -/

/-- Result of `calculate_and_sync_usage`: the returned `used_weight` and the
upstream mutations issued. -/
structure CalcOut where
  result : ℚ
  actions : List UpAction

/-- The `PUT /spool/{id}` payload of the Cloud-authoritative branch of
`calculate_and_sync_usage` (`last_used` falls back to `now` when Cloud
supplied none). -/
def cloud_update_payload (fd : FilamentData) (sm_spool : Spool) (used_g now : ℚ) :
    SpoolUpdatePayload :=
  { filament_id := smFilamentId sm_spool.filament
    price := sm_spool.price
    spool_weight := sm_spool.spool_weight
    archived := sm_spool.archived
    lot_nr := sm_spool.lot_nr
    used_weight := some used_g
    last_used := some ((truthyQ fd.last_used).getD now) }

/-- `sync.calculate_and_sync_usage`: compute usage from the Cloud lengths and
reconcile bidirectionally.  `eps` is `EPSILON_GRAMS`, `dry` the `DRY_RUN`
flag, `now` the current time, `last_sync_time` the stored `LAST_SYNC_TIME`
(0 when no sync has happened), `sp_filament_present` whether the raw Cloud
filament was passed (it always is from `sync_single_filament`). -/
def calculate_and_sync_usage (eps : ℚ) (dry : Bool) (now : ℚ) (fd : FilamentData)
    (sm_spool : Spool) (last_sync_time : ℚ) (sp_filament_present : Bool) : CalcOut :=
  match fd.total_length_mm, fd.left_length_mm with
  | some total, some left =>
    let length_used_mm := max 0 (total - left)
    let gpm := pyOrFloat (grams_per_meter fd.density_g_cm3 fd.diameter_mm) (298/100)
    let used_g := round2 (length_used_mm / 1000 * gpm)
    let cur_used := sm_spool.used_weight.getD 0
    -- shared tail: the Cloud-to-Inv direction after the timestamp check fails
    let tail : CalcOut :=
      if |used_g - cur_used| ≤ eps then ⟨used_g, []⟩
      else if dry then ⟨used_g, []⟩
      else ⟨used_g, [.update_spool sm_spool.id (cloud_update_payload fd sm_spool used_g now)]⟩
    match truthyQ (pyOrQ sm_spool.last_used sm_spool.updated_at) with
    | none => tail
    | some sm_timestamp =>
      if last_sync_time = 0 then tail
      else if sm_timestamp > last_sync_time ∧ |used_g - cur_used| > eps then
        let initial_weight :=
          pyOrFloat sm_spool.initial_weight
            (round_to_standard_weight
              (calculate_weight_from_length total fd.density_g_cm3 fd.diameter_mm)
              fd.brand)
        let remaining_weight := initial_weight - cur_used
        let remaining_length_mm := if gpm > 0 then remaining_weight / gpm * 1000 else 0
        ⟨cur_used,
          if dry = false ∧ sp_filament_present = true then
            [.update_simplyprint fd.uid remaining_length_mm]
          else []⟩
      else tail
  | _, _ => ⟨sm_spool.used_weight.getD 0, []⟩

/-! ## cleanup_deleted_spools -/

/-- The archival payload of `cleanup_deleted_spools`: the spool's own fields
with `archived` set to true (`last_used` is not part of this payload). -/
def archive_payload (sm_spool : Spool) : SpoolUpdatePayload :=
  { filament_id := smFilamentId sm_spool.filament
    price := sm_spool.price
    spool_weight := sm_spool.spool_weight
    archived := true
    lot_nr := sm_spool.lot_nr
    used_weight := sm_spool.used_weight
    last_used := none }

/-- `sync.cleanup_deleted_spools`: for each `lot_nr` of the Inv index absent
from the Cloud uid set, archive the spool if used, delete it if unused, skip
archived spools, and in dry-run only log. -/
def cleanup_deleted_spools (lot_map : List (List Nat × Spool))
    (sp_uids : List (List Nat)) (dry : Bool) : List UpAction :=
  lot_map.filterMap fun p =>
    if p.1 ∈ sp_uids then none
    else if p.2.archived then none
    else if dry then none
    else if p.2.used_weight.getD 0 > 0 then
      some (.update_spool p.2.id (archive_payload p.2))
    else some (.delete_spool p.2.id)

/-! ## C2: cleanup pass -/

/-- C2: for every Inv spool whose lot_nr is absent from the Cloud uid set the
cleanup pass skips it when archived, archives it (preserving its other
fields) when used, deletes it when unused; in dry-run mode no Inv mutation
is issued; and every issued mutation arises this way. -/
theorem cleanup_deleted_spools_spec (lot_map : List (List Nat × Spool))
    (sp_uids : List (List Nat)) :
    (cleanup_deleted_spools lot_map sp_uids true = [])
    ∧ (∀ lot s, (lot, s) ∈ lot_map → lot ∉ sp_uids → s.archived = false →
        s.used_weight.getD 0 > 0 →
          UpAction.update_spool s.id
            { filament_id := smFilamentId s.filament, price := s.price,
              spool_weight := s.spool_weight, archived := true,
              lot_nr := s.lot_nr, used_weight := s.used_weight,
              last_used := none }
            ∈ cleanup_deleted_spools lot_map sp_uids false)
    ∧ (∀ lot s, (lot, s) ∈ lot_map → lot ∉ sp_uids → s.archived = false →
        ¬ s.used_weight.getD 0 > 0 →
          UpAction.delete_spool s.id ∈ cleanup_deleted_spools lot_map sp_uids false)
    ∧ (∀ a ∈ cleanup_deleted_spools lot_map sp_uids false,
        ∃ lot s, (lot, s) ∈ lot_map ∧ lot ∉ sp_uids ∧ s.archived = false ∧
          ((s.used_weight.getD 0 > 0 ∧ a = UpAction.update_spool s.id (archive_payload s))
            ∨ (¬ s.used_weight.getD 0 > 0 ∧ a = UpAction.delete_spool s.id))) := by
  refine ⟨?_, ?_, ?_, ?_⟩
  · unfold cleanup_deleted_spools
    rw [List.filterMap_eq_nil_iff]
    intro p hp
    by_cases h1 : p.1 ∈ sp_uids
    · simp [h1]
    · by_cases h2 : p.2.archived <;> simp [h1, h2]
  · intro lot s hmem hnot harch hused
    unfold cleanup_deleted_spools
    rw [List.mem_filterMap]
    exact ⟨(lot, s), hmem, by simp [hnot, harch, hused, archive_payload]⟩
  · intro lot s hmem hnot harch hused
    unfold cleanup_deleted_spools
    rw [List.mem_filterMap]
    exact ⟨(lot, s), hmem, by simp [hnot, harch, hused]⟩
  · intro a ha
    unfold cleanup_deleted_spools at ha
    rw [List.mem_filterMap] at ha
    obtain ⟨p, hp, hfa⟩ := ha
    by_cases h1 : p.1 ∈ sp_uids
    · simp [h1] at hfa
    · by_cases h2 : p.2.archived
      · simp [h1, h2] at hfa
      · by_cases h3 : p.2.used_weight.getD 0 > 0
        · refine ⟨p.1, p.2, hp, h1, by simpa using h2, Or.inl ⟨h3, ?_⟩⟩
          simp only [h1, h2, h3, if_false, if_true, if_neg, if_pos] at hfa
          simp [h1, h2, h3] at hfa
          exact hfa.symm
        · refine ⟨p.1, p.2, hp, h1, by simpa using h2, Or.inr ⟨h3, ?_⟩⟩
          simp [h1, h2, h3] at hfa
          exact hfa.symm

/-- Witness for C2 at concrete inputs: a used spool is archived with its
fields preserved, an unused one is deleted, and dry-run issues nothing. -/
theorem cleanup_deleted_spools_spec_witness :
    UpAction.update_spool 7
        { filament_id := some 3, price := some 10, spool_weight := some 200,
          archived := true, lot_nr := some (codes "AAAA"),
          used_weight := some 5, last_used := none }
      ∈ cleanup_deleted_spools
          [(codes "AAAA",
            { id := 7, lot_nr := some (codes "AAAA"), used_weight := some 5,
              spool_weight := some 200, price := some 10, archived := false,
              filament := .flat (some 3), initial_weight := some 1000,
              last_used := none, updated_at := none })] [] false
    ∧ UpAction.delete_spool 8
      ∈ cleanup_deleted_spools
          [(codes "BBBB",
            { id := 8, lot_nr := some (codes "BBBB"), used_weight := none,
              spool_weight := none, price := none, archived := false,
              filament := .flat none, initial_weight := none,
              last_used := none, updated_at := none })] [] false
    ∧ cleanup_deleted_spools
        [(codes "BBBB",
          { id := 8, lot_nr := some (codes "BBBB"), used_weight := none,
            spool_weight := none, price := none, archived := false,
            filament := .flat none, initial_weight := none,
            last_used := none, updated_at := none })] [] true = [] := by
  refine ⟨?_, ?_, ?_⟩
  · exact (cleanup_deleted_spools_spec _ _).2.1 (codes "AAAA") _
      (List.mem_singleton.mpr rfl) (by simp) rfl (by norm_num)
  · exact (cleanup_deleted_spools_spec _ _).2.2.1 (codes "BBBB") _
      (List.mem_singleton.mpr rfl) (by simp) rfl (by norm_num)
  · exact (cleanup_deleted_spools_spec _ _).1

/-! ## C1: per-item usage reconciliation -/

/-- C1 (amended): per-item usage reconciliation, for a run with a recorded
previous sync (`last_sync > 0`), the Cloud lengths present, no dry-run and
the raw Cloud filament passed: if the Inv spool carries a truthy
`last_used`/`updated_at` timestamp newer than `last_sync` and
`|used_g − cur_used| > eps`, the result keeps `cur_used` and Cloud is sent
the remaining length `(initial − cur_used)/gpm·1000`; else if
`|used_g − cur_used| ≤ eps`, nothing is updated; else the Inv spool is sent
`used_weight = used_g` with `last_used` defaulting to now.  (Amended from
the claim: when `LAST_SYNC_TIME` is 0 — no previous sync — the code skips
the timestamp rule and Cloud is authoritative.) -/
theorem calculate_and_sync_usage_spec (eps now total left last_sync : ℚ)
    (fd : FilamentData) (sp : Spool)
    (htot : fd.total_length_mm = some total) (hleft : fd.left_length_mm = some left)
    (hsync : 0 < last_sync) :
    ∀ gpm used_g cur_used,
      gpm = pyOrFloat (grams_per_meter fd.density_g_cm3 fd.diameter_mm) (298/100) →
      used_g = round2 (max 0 (total - left) / 1000 * gpm) →
      cur_used = sp.used_weight.getD 0 →
      ((∃ ts, truthyQ (pyOrQ sp.last_used sp.updated_at) = some ts ∧ ts > last_sync
          ∧ |used_g - cur_used| > eps) →
        calculate_and_sync_usage eps false now fd sp last_sync true =
          ⟨cur_used, [.update_simplyprint fd.uid
            (if gpm > 0 then
              (pyOrFloat sp.initial_weight (round_to_standard_weight
                (calculate_weight_from_length total fd.density_g_cm3 fd.diameter_mm)
                fd.brand) - cur_used) / gpm * 1000
             else 0)]⟩)
      ∧ (|used_g - cur_used| ≤ eps →
          calculate_and_sync_usage eps false now fd sp last_sync true = ⟨used_g, []⟩)
      ∧ ((∀ ts, truthyQ (pyOrQ sp.last_used sp.updated_at) = some ts →
            ¬ ts > last_sync) → |used_g - cur_used| > eps →
          calculate_and_sync_usage eps false now fd sp last_sync true =
            ⟨used_g, [.update_spool sp.id (cloud_update_payload fd sp used_g now)]⟩) := by
  intro gpm used_g cur_used hgpm hused hcur
  have hls : ¬ last_sync = 0 := ne_of_gt hsync
  have hfb : ¬ ((false : Bool) = true) := by simp
  subst hgpm
  subst hused
  subst hcur
  refine ⟨fun ⟨ts, hts, htsgt, hdelta⟩ => ?_, fun hdelta => ?_, fun hts hdelta => ?_⟩
  · simp only [calculate_and_sync_usage, htot, hleft, hts]
    rw [if_neg hls, if_pos ⟨htsgt, hdelta⟩, if_pos ⟨trivial, trivial⟩]
  · rcases htq : truthyQ (pyOrQ sp.last_used sp.updated_at) with _ | ts
    · simp only [calculate_and_sync_usage, htot, hleft, htq]
      rw [if_pos hdelta]
    · simp only [calculate_and_sync_usage, htot, hleft, htq]
      rw [if_neg hls, if_neg (fun h => absurd h.2 (not_lt.mpr hdelta)), if_pos hdelta]
  · rcases htq : truthyQ (pyOrQ sp.last_used sp.updated_at) with _ | ts
    · simp only [calculate_and_sync_usage, htot, hleft, htq]
      rw [if_neg (not_le.mpr hdelta), if_neg hfb]
    · simp only [calculate_and_sync_usage, htot, hleft, htq]
      rw [if_neg hls, if_neg (fun h => absurd h.1 (hts ts htq)),
        if_neg (not_le.mpr hdelta), if_neg hfb]

/-- Witness for C1's amended claim at a concrete input (the no-op branch:
the computed usage matches Inv within epsilon, so nothing is updated). -/
theorem calculate_and_sync_usage_spec_witness :
    calculate_and_sync_usage (1/2) false 500
      { uid := codes "PL23", name := codes "PLA", brand := codes "",
        material := codes "PLA", diameter_mm := 7/4, density_g_cm3 := 124/100,
        color_hex := none, nominal_weight_g := none,
        total_length_mm := some 2000, left_length_mm := some 1000,
        spool_weight_g := none, last_used := none, extruder_temp := none,
        bed_temp := none, cost := none }
      { id := 9, lot_nr := some (codes "PL23"), used_weight := some (298/100),
        spool_weight := none, price := none, archived := false,
        filament := .flat (some 2), initial_weight := some 1000,
        last_used := some 200, updated_at := none }
      100 true = ⟨298/100, []⟩ := by
  have hmax : max (0:ℚ) (2000 - 1000) = 1000 := by
    rw [max_eq_right] <;> norm_num
  refine ((calculate_and_sync_usage_spec (1/2) 500 2000 1000 100 _ _ rfl rfl (by norm_num)
      _ _ _ rfl rfl rfl).2.1 ?_).trans ?_
  · norm_num [hmax, pyOrFloat, truthyQ, grams_per_meter, mathPi, round2, round_eq]
  · norm_num [hmax, pyOrFloat, truthyQ, grams_per_meter, mathPi, round2, round_eq]

/-- Cloud filament record of the C1 counterexample. -/
def c1_fd : FilamentData :=
  { uid := codes "PL23", name := codes "PLA", brand := codes "",
    material := codes "PLA", diameter_mm := 7/4, density_g_cm3 := 124/100,
    color_hex := none, nominal_weight_g := none,
    total_length_mm := some 2000, left_length_mm := some 1000,
    spool_weight_g := none, last_used := none, extruder_temp := none,
    bed_temp := none, cost := none }

/-- Inv spool record of the C1 counterexample: a scale correction of 50 g,
touched at time 100, before any recorded sync (`LAST_SYNC_TIME = 0`). -/
def c1_sp : Spool :=
  { id := 9, lot_nr := some (codes "PL23"), used_weight := some 50,
    spool_weight := none, price := none, archived := false,
    filament := .flat (some 2), initial_weight := some 1000,
    last_used := some 100, updated_at := none }

/-- C1 counterexample: with no previous sync recorded (`last_sync = 0`),
Inv's `last_used` (100) is newer than `last_sync` and the weight delta
exceeds epsilon, so the claim demands that `cur_used` (50 g) be kept and
Cloud updated; the program instead overwrites the Inv spool with the
Cloud-computed 2.98 g. -/
theorem calculate_and_sync_usage_counterexample :
    truthyQ (pyOrQ c1_sp.last_used c1_sp.updated_at) = some 100
    ∧ (100:ℚ) > 0
    ∧ |(298:ℚ)/100 - c1_sp.used_weight.getD 0| > 1/2
    ∧ calculate_and_sync_usage (1/2) false 500 c1_fd c1_sp 0 true =
        ⟨298/100, [UpAction.update_spool 9 (cloud_update_payload c1_fd c1_sp (298/100) 500)]⟩
    ∧ (298:ℚ)/100 ≠ c1_sp.used_weight.getD 0 := by
  have hmax : max (0:ℚ) (2000 - 1000) = 1000 := by
    rw [max_eq_right] <;> norm_num
  have habs : |(2351:ℚ)/50| = 2351/50 := abs_of_nonneg (by norm_num)
  refine ⟨by norm_num [c1_sp, truthyQ, pyOrQ], by norm_num,
    by norm_num [c1_sp, habs], ?_, by norm_num [c1_sp]⟩
  norm_num [calculate_and_sync_usage, c1_fd, c1_sp, hmax, habs, pyOrQ, truthyQ, pyOrFloat,
    grams_per_meter, mathPi, round2, round_eq]

/-! ## ensure_vendor / ensure_spoolman_spool -/

/-- Python truthiness of an optional int temperature: `None` and `0` are falsy. -/
def truthyInt : Option ℤ → Option ℤ
  | some n => if n = 0 then none else some n
  | none => none

/-- The `vendor` field of an Inv filament: nested dict, plain value, or null. -/
inductive VendorField
  | vdict (name : Option (List Nat))
  | vstr (s : List Nat)
  | vnull

/-- `find_matching_filament`'s defensive vendor-name extraction
(`sm_vendor.get("name","")` for dicts, `str(sm_vendor) if sm_vendor else ""`). -/
def vendorNameOf : VendorField → List Nat
  | .vdict n => n.getD []
  | .vstr s => s
  | .vnull => []

/-- An Inv filament as listed by `GET /filament`. -/
structure SmFilament where
  id : Option Nat
  name : Option (List Nat)
  material : Option (List Nat)
  diameter : Option ℚ
  vendor : VendorField
  color_hex : Option (List Nat)

/-- An Inv vendor as listed by `GET /vendor`. -/
structure SmVendor where
  id : Option Nat
  name : Option (List Nat)

/-- `sync.find_matching_filament`: first Inv filament matching on material,
diameter (within 0.01), vendor name and color (both present and equal, or
both absent), all case-insensitively. -/
def find_matching_filament (sm_filaments : List SmFilament) (fd : FilamentData) :
    Option SmFilament :=
  sm_filaments.find? fun sm_fil =>
    let material_match := lower (sm_fil.material.getD []) == lower fd.material
    let diameter_match := decide (|sm_fil.diameter.getD 0 - fd.diameter_mm| < 1/100)
    let vendor_match := lower (vendorNameOf sm_fil.vendor) == lower fd.brand
    let color_match :=
      match truthyStr fd.color_hex, truthyStr sm_fil.color_hex with
      | some a, some b => lower b == lower a
      | none, none => true
      | _, _ => false
    material_match && diameter_match && vendor_match && color_match

/-- `sync.ensure_vendor`: resolve a brand to an Inv vendor id, creating the
vendor outside dry-run.  Returns the id, the updated vendor list, the issued
actions and the next fresh server id (modelling server-assigned ids). -/
def ensure_vendor (dry : Bool) (brand_name : List Nat) (sm_vendors : List SmVendor)
    (fresh : Nat) : Option Nat × List SmVendor × List UpAction × Nat :=
  if brand_name = [] ∨ brand_name = codes "Unknown" then (none, sm_vendors, [], fresh)
  else
    match sm_vendors.find? (fun v => lower (v.name.getD []) == lower brand_name) with
    | some v => (v.id, sm_vendors, [], fresh)
    | none =>
      if dry then (none, sm_vendors, [], fresh)
      else
        (some fresh, sm_vendors ++ [{ id := some fresh, name := some brand_name }],
          [.create_vendor brand_name], fresh + 1)

/-- The rounded full-spool weight computed from the Cloud total length when
present (`calculate_weight_from_length` then `round_to_standard_weight`). -/
def totalWeightOf (fd : FilamentData) : Option ℚ :=
  (truthyQ fd.total_length_mm).map fun total =>
    round_to_standard_weight
      (calculate_weight_from_length total fd.density_g_cm3 fd.diameter_mm) fd.brand

/-- The `POST /filament` payload built in `ensure_spoolman_spool` (optional
keys only when truthy, as in the source). -/
def sm_filament_payload (fd : FilamentData) (vendor_id : Option Nat) : SmFilamentPayload :=
  { name := fd.name
    diameter := fd.diameter_mm
    density := fd.density_g_cm3
    material := truthyStr (some fd.material)
    vendor_id := truthyNat vendor_id
    color_hex := truthyStr fd.color_hex
    settings_extruder_temp := truthyInt fd.extruder_temp
    settings_bed_temp := truthyInt fd.bed_temp
    price := truthyQ fd.cost
    weight := totalWeightOf fd }

/-- The `POST /spool` payload built in `ensure_spoolman_spool`. -/
def spool_create_payload (fd : FilamentData) (sm_fil_id : Option Nat) : SpoolCreatePayload :=
  { filament_id := sm_fil_id
    lot_nr := fd.uid
    initial_weight := totalWeightOf fd
    price := 0
    used_weight := 0
    archived := false
    spool_weight := truthyQ fd.spool_weight_g
    last_used := truthyQ fd.last_used }

/-- The spool object the server echoes back for a create payload (modelled
as the payload's fields under a fresh id). -/
def spool_of_create (p : SpoolCreatePayload) (sid : Nat) : Spool :=
  { id := sid, lot_nr := some p.lot_nr, used_weight := some p.used_weight,
    spool_weight := p.spool_weight, price := some p.price, archived := p.archived,
    filament := .flat p.filament_id, initial_weight := p.initial_weight,
    last_used := p.last_used, updated_at := none }

/-- `lot_map[uid]` lookup (`if uid in lot_map: return lot_map[uid]`). -/
def lookupLot (lot_map : List (List Nat × Spool)) (uid : List Nat) : Option Spool :=
  (lot_map.find? (fun p => p.1 == uid)).map (·.2)

/-- Result of `ensure_spoolman_spool`: the spool (if any), the updated Inv
filament/vendor lists, the issued actions and the next fresh server id. -/
structure EnsureOut where
  spool : Option Spool
  sm_filaments : List SmFilament
  sm_vendors : List SmVendor
  actions : List UpAction
  fresh : Nat

/-- `sync.ensure_spoolman_spool`: reuse the spool from the lot index, stop in
dry-run, else reuse or create the Inv filament (creating the vendor first
when needed) and create the spool.  Server responses are modelled as payload
echoes with fresh ids. -/
def ensure_spoolman_spool (dry : Bool) (uid : List Nat) (fd : FilamentData)
    (lot_map : List (List Nat × Spool)) (sm_filaments : List SmFilament)
    (sm_vendors : List SmVendor) (fresh : Nat) : EnsureOut :=
  match lookupLot lot_map uid with
  | some sp => ⟨some sp, sm_filaments, sm_vendors, [], fresh⟩
  | none =>
    if dry then ⟨none, sm_filaments, sm_vendors, [], fresh⟩
    else
      match find_matching_filament sm_filaments fd with
      | some sm_fil =>
        let spool_payload := spool_create_payload fd sm_fil.id
        ⟨some (spool_of_create spool_payload fresh), sm_filaments, sm_vendors,
          [.create_spool spool_payload], fresh + 1⟩
      | none =>
        let vres := if fd.brand ≠ [] then ensure_vendor dry fd.brand sm_vendors fresh
          else (none, sm_vendors, [], fresh)
        let vendor_id := vres.1
        let fresh1 := vres.2.2.2
        let fil_payload := sm_filament_payload fd vendor_id
        let new_fil : SmFilament :=
          { id := some fresh1, name := some fil_payload.name,
            material := fil_payload.material, diameter := some fil_payload.diameter,
            vendor := match vendor_id with
              | some _ => .vdict (some fd.brand)
              | none => .vnull,
            color_hex := fil_payload.color_hex }
        let spool_payload := spool_create_payload fd (some fresh1)
        ⟨some (spool_of_create spool_payload (fresh1 + 1)),
          sm_filaments ++ [new_fil], vres.2.1,
          vres.2.2.1 ++ [.create_filament fil_payload, .create_spool spool_payload],
          fresh1 + 2⟩

/-! ## Local cache (db.py) -/

/-- A row of the `filament` table (timestamps omitted). -/
structure FilamentRow where
  id : Nat
  name : List Nat
  brand : Option (List Nat)
  material : Option (List Nat)
  diameter_mm : Option ℚ
  density_g_cm3 : Option ℚ
  color_hex : Option (List Nat)
  nominal_weight_g : Option ℚ

/-- A row of the `spool` table (timestamps omitted). -/
structure SpoolRow where
  id : Nat
  filament_id : Nat
  lot_nr : Option (List Nat)
  spool_weight_g : Option ℚ
  price_eur : Option ℚ
  used_weight_g : ℚ
  archived : Bool
  source : Option (List Nat)

/-- The local cache (the two mirrored tables with their autoincrement ids). -/
structure Db where
  filaments : List FilamentRow
  spools : List SpoolRow
  nextFilamentId : Nat
  nextSpoolId : Nat

/-- The dict passed to `db.upsert_filament`. -/
structure FilamentUpsert where
  name : List Nat
  brand : Option (List Nat)
  material : Option (List Nat)
  diameter_mm : Option ℚ
  density_g_cm3 : Option ℚ
  color_hex : Option (List Nat)
  nominal_weight_g : Option ℚ

/-- `db.upsert_filament`: match on `(name, IFNULL(material,''),
IFNULL(diameter_mm,0))`; update brand/density/color/nominal on a hit, else
insert; returns the row id. -/
def upsert_filament (db : Db) (f : FilamentUpsert) : Nat × Db :=
  match db.filaments.find? (fun row =>
      row.name == f.name
        && row.material.getD [] == f.material.getD []
        && decide (row.diameter_mm.getD 0 = f.diameter_mm.getD 0)) with
  | some row =>
    (row.id,
     { db with filaments := db.filaments.map (fun r =>
         if r.id = row.id then
           { r with
             brand := f.brand
             density_g_cm3 := f.density_g_cm3
             color_hex := f.color_hex
             nominal_weight_g := f.nominal_weight_g }
         else r) })
  | none =>
    (db.nextFilamentId,
     { db with
       filaments := db.filaments ++
         [{ id := db.nextFilamentId, name := f.name, brand := f.brand,
            material := f.material, diameter_mm := f.diameter_mm,
            density_g_cm3 := f.density_g_cm3, color_hex := f.color_hex,
            nominal_weight_g := f.nominal_weight_g }],
       nextFilamentId := db.nextFilamentId + 1 })

/-- The dict passed to `db.upsert_spool`. -/
structure SpoolUpsert where
  filament_id : Nat
  lot_nr : Option (List Nat)
  spool_weight_g : Option ℚ
  price_eur : Option ℚ
  used_weight_g : ℚ
  archived : Bool
  source : Option (List Nat)

/-- `db.upsert_spool`: match on a truthy `lot_nr`; update all mutable fields
on a hit, else insert; returns the row id. -/
def upsert_spool (db : Db) (s : SpoolUpsert) : Nat × Db :=
  match truthyStr s.lot_nr with
  | some lot =>
    match db.spools.find? (fun r => r.lot_nr == some lot) with
    | some row =>
      (row.id,
       { db with spools := db.spools.map (fun r =>
           if r.id = row.id then
             { r with
               filament_id := s.filament_id
               spool_weight_g := s.spool_weight_g
               price_eur := s.price_eur
               used_weight_g := s.used_weight_g
               archived := s.archived
               source := s.source }
           else r) })
    | none =>
      (db.nextSpoolId,
       { db with
         spools := db.spools ++
           [{ id := db.nextSpoolId, filament_id := s.filament_id, lot_nr := s.lot_nr,
              spool_weight_g := s.spool_weight_g, price_eur := s.price_eur,
              used_weight_g := s.used_weight_g, archived := s.archived,
              source := s.source }],
         nextSpoolId := db.nextSpoolId + 1 })
  | none =>
    (db.nextSpoolId,
     { db with
       spools := db.spools ++
         [{ id := db.nextSpoolId, filament_id := s.filament_id, lot_nr := s.lot_nr,
            spool_weight_g := s.spool_weight_g, price_eur := s.price_eur,
            used_weight_g := s.used_weight_g, archived := s.archived,
            source := s.source }],
       nextSpoolId := db.nextSpoolId + 1 })

/-! ## sync_single_filament and the tick -/

/-- The state threaded through a tick: the local cache, the Inv filament and
vendor lists (mutated by creates) and the fresh-server-id counter. -/
structure SyncState where
  db : Db
  sm_filaments : List SmFilament
  sm_vendors : List SmVendor
  fresh : Nat

/-- Result of one item: the returned status, the updated state, the issued
upstream actions. -/
structure SyncItemOut where
  ok : Bool
  state : SyncState
  actions : List UpAction

/-- The local filament mirror row built in `sync_single_filament`. -/
def filament_upsert_of (fd : FilamentData) : FilamentUpsert :=
  { name := fd.name, brand := some fd.brand, material := some fd.material,
    diameter_mm := some fd.diameter_mm, density_g_cm3 := some fd.density_g_cm3,
    color_hex := fd.color_hex, nominal_weight_g := fd.nominal_weight_g }

/-- `sync.sync_single_filament` at the decision level (upstream and cache
calls succeed): mirror the filament locally, ensure the Inv spool, reconcile
usage, mirror the spool locally. -/
def sync_single_filament (eps : ℚ) (dry : Bool) (now : ℚ) (last_sync : ℚ)
    (lot_map : List (List Nat × Spool)) (fd : FilamentData) (st : SyncState) :
    SyncItemOut :=
  if truthyStr (some fd.uid) = none then ⟨false, st, []⟩
  else
    let up1 := upsert_filament st.db (filament_upsert_of fd)
    let e := ensure_spoolman_spool dry fd.uid fd lot_map st.sm_filaments st.sm_vendors st.fresh
    let used_g : ℚ := match e.spool with
      | some sm_spool => (calculate_and_sync_usage eps dry now fd sm_spool last_sync true).result
      | none => 0
    let calc_acts : List UpAction := match e.spool with
      | some sm_spool => (calculate_and_sync_usage eps dry now fd sm_spool last_sync true).actions
      | none => []
    let up2 := upsert_spool up1.2
      { filament_id := up1.1
        lot_nr := some fd.uid
        spool_weight_g := e.spool.bind (·.spool_weight)
        price_eur := e.spool.bind (·.price)
        used_weight_g := used_g
        archived := (e.spool.map (·.archived)).getD false
        source := some (codes "simplyprint") }
    ⟨true, ⟨up2.2, e.sm_filaments, e.sm_vendors, e.fresh⟩, e.actions ++ calc_acts⟩

/-- The per-item loop of `run_sync_once` (state threads through the items;
actions accumulate in order). -/
def sync_items (eps : ℚ) (dry : Bool) (now : ℚ) (last_sync : ℚ)
    (lot_map : List (List Nat × Spool)) :
    List FilamentData → SyncState → SyncState × List UpAction
  | [], st => (st, [])
  | fd :: fds, st =>
    let r := sync_single_filament eps dry now last_sync lot_map fd st
    let rest := sync_items eps dry now last_sync lot_map fds r.state
    (rest.1, r.actions ++ rest.2)

/-- One tick of `run_sync_once` after successful fetches: reconcile every
Cloud filament, then run the cleanup pass. -/
def run_sync_once_model (eps : ℚ) (dry : Bool) (now : ℚ) (last_sync : ℚ)
    (lot_map : List (List Nat × Spool)) (sp_uids : List (List Nat))
    (fds : List FilamentData) (st : SyncState) : SyncState × List UpAction :=
  let step := sync_items eps dry now last_sync lot_map fds st
  (step.1, step.2 ++ cleanup_deleted_spools lot_map sp_uids dry)

/-! ## C6/C10: dry-run behaviour -/

lemma cleanup_dry_nil (lot_map : List (List Nat × Spool)) (sp_uids : List (List Nat)) :
    cleanup_deleted_spools lot_map sp_uids true = [] := by
  unfold cleanup_deleted_spools
  rw [List.filterMap_eq_nil_iff]
  intro p hp
  by_cases h1 : p.1 ∈ sp_uids
  · simp [h1]
  · by_cases h2 : p.2.archived <;> simp [h1, h2]

lemma ensure_spoolman_spool_dry (uid : List Nat) (fd : FilamentData)
    (lot_map : List (List Nat × Spool)) (fil : List SmFilament)
    (vend : List SmVendor) (fresh : Nat) :
    ensure_spoolman_spool true uid fd lot_map fil vend fresh =
      ⟨lookupLot lot_map uid, fil, vend, [], fresh⟩ := by
  unfold ensure_spoolman_spool
  rcases h : lookupLot lot_map uid with _ | sp <;> simp [h]

lemma calculate_and_sync_usage_dry (eps now last_sync : ℚ) (fd : FilamentData)
    (sp : Spool) (pres : Bool) :
    (calculate_and_sync_usage eps true now fd sp last_sync pres).actions = [] := by
  rcases htot : fd.total_length_mm with _ | total
  · simp [calculate_and_sync_usage, htot]
  · rcases hleft : fd.left_length_mm with _ | left
    · simp [calculate_and_sync_usage, htot, hleft]
    · rcases htq : truthyQ (pyOrQ sp.last_used sp.updated_at) with _ | ts
      · simp only [calculate_and_sync_usage, htot, hleft, htq]
        split_ifs <;> rfl
      · simp only [calculate_and_sync_usage, htot, hleft, htq]
        split_ifs <;> first | rfl | simp_all

lemma sync_single_filament_dry (eps now last_sync : ℚ)
    (lot_map : List (List Nat × Spool)) (fd : FilamentData) (st : SyncState) :
    (sync_single_filament eps true now last_sync lot_map fd st).actions = []
    ∧ ((sync_single_filament eps true now last_sync lot_map fd st).ok = true
        ↔ truthyStr (some fd.uid) ≠ none)
    ∧ (sync_single_filament eps true now last_sync lot_map fd st).state.sm_filaments
        = st.sm_filaments
    ∧ (sync_single_filament eps true now last_sync lot_map fd st).state.sm_vendors
        = st.sm_vendors
    ∧ (sync_single_filament eps true now last_sync lot_map fd st).state.fresh = st.fresh := by
  by_cases h : truthyStr (some fd.uid) = none
  · simp [sync_single_filament, h]
  · simp only [sync_single_filament, if_neg h, ensure_spoolman_spool_dry]
    refine ⟨?_, by simp [h], trivial, trivial, trivial⟩
    rcases hl : lookupLot lot_map fd.uid with _ | sp
    · simp [hl]
    · simp [hl, calculate_and_sync_usage_dry]

/-- C6: with `DRY_RUN = "true"` a full tick issues no mutating upstream call
(no vendor/filament/spool creation, no spool update or deletion, no Cloud
filament update, neither from per-item reconciliation nor from cleanup), and
each item is still reported successful exactly as in a normal run (truthy
uid). -/
theorem dry_run_never_mutates (eps now last_sync : ℚ)
    (lot_map : List (List Nat × Spool)) (sp_uids : List (List Nat))
    (fds : List FilamentData) (st : SyncState) :
    (run_sync_once_model eps true now last_sync lot_map sp_uids fds st).2 = []
    ∧ ∀ fd st', ((sync_single_filament eps true now last_sync lot_map fd st').ok = true
        ↔ truthyStr (some fd.uid) ≠ none) := by
  constructor
  · have hitems : ∀ (fds' : List FilamentData) (st' : SyncState),
        (sync_items eps true now last_sync lot_map fds' st').2 = [] := by
      intro fds'
      induction fds' with
      | nil => intro st'; rfl
      | cons fd rest ih =>
        intro st'
        simp only [sync_items]
        rw [(sync_single_filament_dry eps now last_sync lot_map fd st').1, ih]
        rfl
    simp only [run_sync_once_model]
    rw [hitems fds st, cleanup_dry_nil lot_map sp_uids]
    rfl
  · intro fd st'
    exact (sync_single_filament_dry eps now last_sync lot_map fd st').2.1

/-- C10: dry-run still writes the local cache: for every Cloud filament with
a truthy uid, `sync_single_filament` under `DRY_RUN` reports success, issues
no upstream action, leaves the Inv filament and vendor lists untouched, and
still upserts both the mirrored filament row (matched on
name/material/diameter) and the mirrored spool row (matched on lot_nr) into
the local database. -/
theorem sync_single_filament_dry_run_local_writes (eps now last_sync : ℚ)
    (lot_map : List (List Nat × Spool)) (fd : FilamentData) (st : SyncState)
    (huid : ¬ truthyStr (some fd.uid) = none) :
    (sync_single_filament eps true now last_sync lot_map fd st).ok = true
    ∧ (sync_single_filament eps true now last_sync lot_map fd st).actions = []
    ∧ (sync_single_filament eps true now last_sync lot_map fd st).state.sm_filaments
        = st.sm_filaments
    ∧ (sync_single_filament eps true now last_sync lot_map fd st).state.sm_vendors
        = st.sm_vendors
    ∧ (sync_single_filament eps true now last_sync lot_map fd st).state.db =
        (upsert_spool (upsert_filament st.db (filament_upsert_of fd)).2
          { filament_id := (upsert_filament st.db (filament_upsert_of fd)).1
            lot_nr := some fd.uid
            spool_weight_g := (lookupLot lot_map fd.uid).bind (·.spool_weight)
            price_eur := (lookupLot lot_map fd.uid).bind (·.price)
            used_weight_g := match lookupLot lot_map fd.uid with
              | some sp => (calculate_and_sync_usage eps true now fd sp last_sync true).result
              | none => 0
            archived := ((lookupLot lot_map fd.uid).map (·.archived)).getD false
            source := some (codes "simplyprint") }).2 := by
  have hd := sync_single_filament_dry eps now last_sync lot_map fd st
  refine ⟨hd.2.1.mpr huid, hd.1, hd.2.2.1, hd.2.2.2.1, ?_⟩
  simp only [sync_single_filament, if_neg huid, ensure_spoolman_spool_dry]

/-- Witness for C10 at a concrete input: a filament with uid "PL23" against
an empty cache and empty Inv still reports success under dry-run. -/
theorem sync_single_filament_dry_run_local_writes_witness :
    (sync_single_filament 0 true 0 0 []
      { uid := codes "PL23", name := codes "PLA", brand := codes "",
        material := codes "PLA", diameter_mm := 7/4, density_g_cm3 := 124/100,
        color_hex := none, nominal_weight_g := none,
        total_length_mm := none, left_length_mm := none,
        spool_weight_g := none, last_used := none, extruder_temp := none,
        bed_temp := none, cost := none }
      ⟨⟨[], [], 1, 1⟩, [], [], 1⟩).ok = true :=
  (sync_single_filament_dry_run_local_writes 0 0 0 [] _ _ (by decide)).1

/-! ## C4: error handling and counting -/

/-- Error kinds of the exception-flow model: an `UpstreamError` (non-2xx or
`status=false` from Inv/Cloud) or a local-cache failure. -/
inductive PyErr
  | upstream
  | cache
deriving DecidableEq

/-- Outcomes of the fallible calls made while reconciling one item, used to
model the try/except structure of `sync_single_filament` and its callees. -/
structure ItemOracle where
  extract : Except PyErr FilamentData
  upsertFilamentCall : Except PyErr Nat
  ensureCall : Except PyErr (Option Spool)
  updateSpoolCall : Except PyErr Unit
  upsertSpoolCall : Except PyErr Nat

/-- Boolean success test of a call outcome. -/
def isOkB {α : Type} : Except PyErr α → Bool
  | .ok _ => true
  | .error _ => false

/-- Whether a call outcome is an `UpstreamError`. -/
def isUpstreamErr {α : Type} : Except PyErr α → Bool
  | .error .upstream => true
  | _ => false

/-- The `except Exception` wrapping the whole body of
`ensure_spoolman_spool` (sync.py 570–572): any error — including an
UpstreamError from a create call — is logged and turned into `None`. -/
def ensure_spoolman_spool_caught (o : Except PyErr (Option Spool)) : Option Spool :=
  match o with
  | .ok r => r
  | .error _ => none

/-- Whether the reconciliation decision issues a `PUT /spool/{id}` — the one
fallible upstream call `calculate_and_sync_usage` makes in its
Cloud-authoritative branch, wrapped in try/except at sync.py 689–722. -/
def issuesUpdateSpool (acts : List UpAction) : Bool :=
  acts.any fun a =>
    match a with
    | .update_spool _ _ => true
    | _ => false

/-- One item of `sync_single_filament` at the exception-flow level: the
decision logic of `calculate_and_sync_usage` is run for real on the
extracted data and the ensured spool, each fallible call's outcome comes
from the oracle and is consulted exactly where the source makes the call,
and each `except` catches exactly where the source catches (inside
`ensure_spoolman_spool`, around `smc.update_spool`, and the outer
try/except of `sync_single_filament`).  Returns the item's reported status
together with whether an UpstreamError from an Inv/Cloud call occurred
(and was swallowed) while reconciling the item. -/
def sync_single_filament_run (eps : ℚ) (dry : Bool) (now last_sync : ℚ)
    (o : ItemOracle) : Bool × Bool :=
  match o.extract with
  | .error _ => (false, false)
  | .ok fd =>
    if truthyStr (some fd.uid) = none then (false, false)
    else
      match o.upsertFilamentCall with
      | .error _ => (false, false)
      | .ok _ =>
        let ensureHit := isUpstreamErr o.ensureCall
        let sm_spool := ensure_spoolman_spool_caught o.ensureCall
        let usageHit :=
          match sm_spool with
          | some sp =>
            issuesUpdateSpool
                (calculate_and_sync_usage eps dry now fd sp last_sync true).actions
              && isUpstreamErr o.updateSpoolCall
          | none => false
        let hit := ensureHit || usageHit
        match o.upsertSpoolCall with
        | .error _ => (false, hit)
        | .ok _ => (true, hit)

/-- The counting loop of `run_sync_once` (sync.py 875–899): abort the tick
(no counts) when an initial fetch fails; otherwise count each item's
True/False as a success or an error. -/
def run_sync_once_counts (eps : ℚ) (dry : Bool) (now last_sync : ℚ)
    (fetch : Except PyErr (List ItemOracle)) : Option (Nat × Nat) :=
  match fetch with
  | .error _ => none
  | .ok items =>
    some (items.foldl
      (fun acc o =>
        if (sync_single_filament_run eps dry now last_sync o).1 then (acc.1 + 1, acc.2)
        else (acc.1, acc.2 + 1))
      (0, 0))

/-- C4 (amended): a failed initial fetch — and only that — aborts the tick;
per item, the reported status is False exactly when extraction fails, the
uid is missing, or a local-cache upsert fails; and an item that did hit an
UpstreamError from an Inv/Cloud call (inside `ensure_spoolman_spool` or at
the `smc.update_spool` call of `calculate_and_sync_usage`) still reports
success whenever its local-cache spool write succeeds — the error is
swallowed, contrary to the claim. -/
theorem upstream_error_policy_spec :
    (∀ (eps : ℚ) (dry : Bool) (now last_sync : ℚ) (e : PyErr),
        run_sync_once_counts eps dry now last_sync (.error e) = none)
    ∧ (∀ (eps : ℚ) (dry : Bool) (now last_sync : ℚ) items,
        (run_sync_once_counts eps dry now last_sync (.ok items)).isSome = true)
    ∧ (∀ (eps : ℚ) (dry : Bool) (now last_sync : ℚ) (o : ItemOracle),
        (sync_single_filament_run eps dry now last_sync o).1 = true ↔
          ((∃ fd, o.extract = .ok fd ∧ ¬ truthyStr (some fd.uid) = none)
            ∧ isOkB o.upsertFilamentCall = true ∧ isOkB o.upsertSpoolCall = true))
    ∧ (∀ (eps : ℚ) (dry : Bool) (now last_sync : ℚ) (o : ItemOracle),
        (sync_single_filament_run eps dry now last_sync o).2 = true →
        isOkB o.upsertSpoolCall = true →
        (sync_single_filament_run eps dry now last_sync o).1 = true) := by
  refine ⟨fun eps dry now last_sync e => rfl, fun eps dry now last_sync items => rfl,
    fun eps dry now last_sync o => ?_, fun eps dry now last_sync o hhit hok => ?_⟩
  · constructor
    · intro h
      rcases hex : o.extract with e | fd
      · simp [sync_single_filament_run, hex] at h
      · simp only [sync_single_filament_run, hex] at h
        by_cases huid : truthyStr (some fd.uid) = none
        · rw [if_pos huid] at h
          simp at h
        · rw [if_neg huid] at h
          rcases h1 : o.upsertFilamentCall with e | n
          · simp [h1] at h
          · simp only [h1] at h
            rcases h2 : o.upsertSpoolCall with e | n2
            · simp [h2] at h
            · exact ⟨⟨fd, rfl, huid⟩, by simp [isOkB, h1], by simp [isOkB, h2]⟩
    · rintro ⟨⟨fd, hex, huid⟩, h1, h2⟩
      simp only [sync_single_filament_run, hex]
      rw [if_neg huid]
      rcases hh1 : o.upsertFilamentCall with e | n
      · rw [hh1] at h1
        simp [isOkB] at h1
      · simp only [hh1]
        rcases hh2 : o.upsertSpoolCall with e | n2
        · rw [hh2] at h2
          simp [isOkB] at h2
        · simp [hh2]
  · rcases hex : o.extract with e | fd
    · simp [sync_single_filament_run, hex] at hhit
    · simp only [sync_single_filament_run, hex] at hhit ⊢
      by_cases huid : truthyStr (some fd.uid) = none
      · rw [if_pos huid] at hhit
        simp at hhit
      · rw [if_neg huid] at hhit ⊢
        rcases h1 : o.upsertFilamentCall with e | n
        · simp [h1] at hhit
        · simp only [h1] at hhit ⊢
          rcases h2 : o.upsertSpoolCall with e | n2
          · rw [h2] at hok
            simp [isOkB] at hok
          · simp [h2]

/-- Witness for C4's amended claim at concrete inputs: a healthy item
(ok calls, truthy uid) reports success. -/
theorem upstream_error_policy_spec_witness :
    (sync_single_filament_run 0 false 0 0
      { extract := .ok
          { uid := codes "PL23", name := codes "PLA", brand := codes "",
            material := codes "PLA", diameter_mm := 7/4, density_g_cm3 := 124/100,
            color_hex := none, nominal_weight_g := none,
            total_length_mm := none, left_length_mm := none,
            spool_weight_g := none, last_used := none, extruder_temp := none,
            bed_temp := none, cost := none },
        upsertFilamentCall := .ok 1,
        ensureCall := .ok none,
        updateSpoolCall := .ok (),
        upsertSpoolCall := .ok 1 }).1 = true :=
  (upstream_error_policy_spec.2.2.1 0 false 0 0 _).mpr ⟨⟨_, rfl, by decide⟩, rfl, rfl⟩

/-- Cloud filament record of the C4 counterexample (lengths present,
PLA 1.75 mm at density 1.24). -/
def c4_fd : FilamentData :=
  { uid := codes "PL23", name := codes "PLA", brand := codes "",
    material := codes "PLA", diameter_mm := 7/4, density_g_cm3 := 124/100,
    color_hex := none, nominal_weight_g := none,
    total_length_mm := some 2000, left_length_mm := some 1000,
    spool_weight_g := none, last_used := none, extruder_temp := none,
    bed_temp := none, cost := none }

/-- Inv spool record of the C4 counterexample: no timestamps, so the
reconciliation takes the Cloud-authoritative branch, and the recorded
50 g differs from the computed 2.98 g by far more than epsilon, so
`smc.update_spool` really is called. -/
def c4_sp : Spool :=
  { id := 9, lot_nr := some (codes "PL23"), used_weight := some 50,
    spool_weight := none, price := none, archived := false,
    filament := .flat (some 2), initial_weight := some 1000,
    last_used := none, updated_at := none }

/-- Call outcomes of the C4 counterexample: every call succeeds except
`smc.update_spool`, which raises an UpstreamError. -/
def c4_oracle : ItemOracle :=
  { extract := .ok c4_fd
    upsertFilamentCall := .ok 1
    ensureCall := .ok (some c4_sp)
    updateSpoolCall := .error .upstream
    upsertSpoolCall := .ok 1 }

/-- C4 counterexample: reconciling `c4_fd` against `c4_sp` (epsilon 0.5, no
dry-run) really issues the `PUT /spool/9` update, that call's outcome is an
UpstreamError which the item consults and swallows (hit flag true), and yet
the item reports success and the tick counts 1 success, 0 errors — the item
is neither counted as an error nor skipped. -/
theorem upstream_error_counted_as_success :
    issuesUpdateSpool
        (calculate_and_sync_usage (1/2) false 500 c4_fd c4_sp 100 true).actions = true
    ∧ c4_oracle.updateSpoolCall = Except.error PyErr.upstream
    ∧ (sync_single_filament_run (1/2) false 500 100 c4_oracle).2 = true
    ∧ (sync_single_filament_run (1/2) false 500 100 c4_oracle).1 = true
    ∧ run_sync_once_counts (1/2) false 500 100 (.ok [c4_oracle]) = some (1, 0) := by
  have hmax : max (0:ℚ) (2000 - 1000) = 1000 := by
    rw [max_eq_right] <;> norm_num
  have habs : |(2351:ℚ)/50| = 2351/50 := abs_of_nonneg (by norm_num)
  have hacts : (calculate_and_sync_usage (1/2) false 500 c4_fd c4_sp 100 true).actions
      = [UpAction.update_spool 9 (cloud_update_payload c4_fd c4_sp (298/100) 500)] := by
    norm_num [calculate_and_sync_usage, c4_fd, c4_sp, hmax, habs, pyOrQ, truthyQ,
      pyOrFloat, grams_per_meter, mathPi, round2, round_eq]
  have hissue : issuesUpdateSpool
      (calculate_and_sync_usage (1/2) false 500 c4_fd c4_sp 100 true).actions = true := by
    rw [hacts]
    rfl
  have hrun : sync_single_filament_run (1/2) false 500 100 c4_oracle = (true, true) := by
    simp only [sync_single_filament_run, c4_oracle]
    rw [if_neg (by decide : ¬ truthyStr (some c4_fd.uid) = none)]
    simp only [ensure_spoolman_spool_caught, isUpstreamErr, hissue, Bool.false_or,
      Bool.and_true, Bool.true_and]
  refine ⟨hissue, rfl, ?_, ?_, ?_⟩
  · rw [hrun]
  · rw [hrun]
  · simp only [run_sync_once_counts, List.foldl_cons, List.foldl_nil, hrun]
    rfl

end Spoolsync
